import Mathlib

/-!
Verification development for `notebook_environments.py` (vladpunko/notebook-environments).

The Python source is shallowly embedded: every fallible operation returns
`Except`/`Option`, filesystem and interpreter facts are passed explicitly, and
`sys.exit(code)` is modelled as an error value carrying the exit status code.
-/

namespace NbEnv

/-- errno.EPERM, the exit status used for validation/platform/activation failures. -/
def EPERM : Nat := 1

/-- errno.ENOENT. -/
def ENOENT : Nat := 2

/-- errno.EEXIST. -/
def EEXIST : Nat := 17

/-- errno.ENOTDIR. -/
def ENOTDIR : Nat := 20

/-- A JSON value, as produced by Python's `json.load`:  objects are ordered
string-keyed field lists (later duplicate keys win, as in a Python dict built
by the json parser). -/
inductive Json where
  | jnull
  | jbool (b : Bool)
  | jnum (n : Int)
  | jstr (s : String)
  | jarr (elems : List Json)
  | jobj (fields : List (String × Json))

/-- Lookup in a Python dict built from a JSON object's field list: the last
binding for a key wins. -/
def dictLookup (fields : List (String × Json)) (key : String) : Option Json :=
  fields.foldl (fun acc kv => if kv.1 = key then some kv.2 else acc) none

/-- The outcome of opening, decoding and json-parsing a kernel's
`kernel.json`: an I/O error (`IOError`/`OSError`) opening or reading it, a
`UnicodeDecodeError` because the file's bytes are not valid UTF-8 (the
stream is opened with `encoding="utf-8"`; this is a `ValueError` that is
not a `JSONDecodeError`), a `JSONDecodeError` from the parser, or a parsed
value. -/
inductive ReadResult where
  | ioError
  | decodeError
  | parseError
  | parsed (j : Json)

/-- The Python exceptions that can arise while the broken-kernel check
reads the descriptor and evaluates `json.load(stream)["argv"][0]` and the
interpreter-path probes.  `_check_and_remove_broken_kernel` catches
`IOError`/`OSError` (`ioErr`), `KeyError` (`keyErr`), `IndexError`
(`indexErr`) and `JSONDecodeError`; `TypeError` (`typeErr`) and
`UnicodeDecodeError` (`unicodeErr`, a `ValueError` sibling of
`JSONDecodeError` and so not matched by the except tuple on Python 3) are
not in its except clause and escape. -/
inductive PyErr where
  | ioErr
  | keyErr
  | indexErr
  | typeErr
  | unicodeErr

/-- External facts consulted by the program: which paths are regular files
(`os.path.isfile`), which are executable by the current user
(`os.access(path, os.X_OK)`), and whether `_remove_dir` on a path succeeds
(`none`) or fails with an errno (`some e`, on which `_remove_dir` calls
`sys.exit(e)`). -/
structure World where
  isfile : String → Bool
  xok : String → Bool
  removeErr : String → Option Nat

/-- Python evaluation of `v["argv"]` for a value `v` returned by `json.load`:
subscripting a dict by a string key either finds the value or raises
`KeyError`; subscripting a list, string, number, boolean or `None` by a
string raises `TypeError`. -/
def subscriptArgv : Json → Except PyErr Json
  | Json.jobj fields =>
    match dictLookup fields "argv" with
    | some v => Except.ok v
    | none => Except.error PyErr.keyErr
  | _ => Except.error PyErr.typeErr

/-- Python evaluation of `a[0]` for a json value `a`: list indexing raises
`IndexError` when empty; string indexing yields the one-character first
substring or raises `IndexError` when empty; dict indexing by the integer 0
raises `KeyError` (json object keys are all strings); numbers, booleans and
`None` are not subscriptable and raise `TypeError`. -/
def subscriptZero : Json → Except PyErr Json
  | Json.jarr l =>
    match l.head? with
    | some v => Except.ok v
    | none => Except.error PyErr.indexErr
  | Json.jstr s =>
    if s.isEmpty then Except.error PyErr.indexErr
    else Except.ok (Json.jstr (String.singleton s.front))
  | Json.jobj _ => Except.error PyErr.keyErr
  | _ => Except.error PyErr.typeErr

/-- Python evaluation of `all((os.path.isfile(p), os.access(p, os.X_OK)))`.
Both tuple elements are built eagerly before `all` runs.  For a string path
both calls return booleans.  For any non-string value the pair of calls
raises `TypeError`: `os.access` rejects non-path arguments with `TypeError`
(and for values such as `None` or lists `os.stat` inside `os.path.isfile`
already raises `TypeError`, which `isfile` only shields against `OSError`
and `ValueError`). -/
def interpUsable (w : World) : Json → Except PyErr Bool
  | Json.jstr s => Except.ok (w.isfile s && w.xok s)
  | _ => Except.error PyErr.typeErr

/-- `_check_and_remove_broken_kernel`, as a classifier of one kernel's
descriptor read outcome.  `Except.ok true` means the kernel is classified
broken (the code calls `_remove_dir` on it), `Except.ok false` means it is
kept, and `Except.error e` means a Python exception outside the function's
except clause (`IOError, OSError, IndexError, KeyError, JSONDecodeError`)
propagates out of the check — `UnicodeDecodeError` on non-UTF-8 descriptor
bytes, or `TypeError` on wrongly shaped JSON. -/
def checkBroken (w : World) : ReadResult → Except PyErr Bool
  | ReadResult.ioError => Except.ok true
  | ReadResult.decodeError => Except.error PyErr.unicodeErr
  | ReadResult.parseError => Except.ok true
  | ReadResult.parsed j =>
    match subscriptArgv j with
    | Except.error PyErr.keyErr => Except.ok true
    | Except.error e => Except.error e
    | Except.ok argv =>
      match subscriptZero argv with
      | Except.error PyErr.keyErr => Except.ok true
      | Except.error PyErr.indexErr => Except.ok true
      | Except.error e => Except.error e
      | Except.ok p =>
        match interpUsable w p with
        | Except.error e => Except.error e
        | Except.ok usable => Except.ok (!usable)

/-- Shape restriction on a descriptor read outcome under which the broken
check runs without reaching an uncaught exception: the descriptor's bytes
decode as UTF-8 (no `UnicodeDecodeError`), and whenever the content
parses, the top-level value is a JSON object and its `argv` member, when
present, is an array all of whose elements are strings (no `TypeError`). -/
def goodShape : ReadResult → Bool
  | ReadResult.ioError => true
  | ReadResult.decodeError => false
  | ReadResult.parseError => true
  | ReadResult.parsed (Json.jobj fields) =>
    match dictLookup fields "argv" with
    | none => true
    | some (Json.jarr l) =>
      l.all fun x => match x with | Json.jstr _ => true | _ => false
    | some _ => false
  | ReadResult.parsed _ => false

/-- Brokenness of one descriptor read outcome in the words of the spec
(section 4.5): broken iff the descriptor is unreadable, or fails to parse,
or fails to parse as the expected JSON shape, or `argv` is absent or empty,
or `argv[0]` does not name an existing file executable by the current
user. -/
def specBrokenRead (w : World) : ReadResult → Bool
  | ReadResult.ioError => true
  | ReadResult.decodeError => true
  | ReadResult.parseError => true
  | ReadResult.parsed j =>
    match j with
    | Json.jobj fields =>
      match dictLookup fields "argv" with
      | some (Json.jarr (x :: _)) =>
        match x with
        | Json.jstr s => !(w.isfile s && w.xok s)
        | _ => true
      | some (Json.jarr []) => true
      | some _ => true
      | none => true
    | _ => true

/-- Brokenness of a kernel directory given its descriptor-file state
(`none` = no `kernel.json` regular file in the directory). -/
def specBroken (w : World) : Option ReadResult → Bool
  | none => true
  | some rr => specBrokenRead w rr

/-- One immediate child of the kernel root: its name (from `os.listdir`),
whether it is a directory (`os.path.isdir`), and, when `kernel.json` inside
it is a regular file (`os.path.isfile`), the outcome of opening and parsing
that file.  `descr = none` means there is no `kernel.json` regular file. -/
structure RootEntry where
  name : String
  isdir : Bool
  descr : Option ReadResult

/-- The scanner condition of `_list_kernels_in`: the child is a directory
and contains a regular file named `kernel.json`. -/
def scannedEntry (e : RootEntry) : Bool :=
  e.isdir && e.descr.isSome

/-- Outcome of `os.listdir(path)` on the kernel root: either the list of
children (in directory enumeration order) or an `OSError` carrying an
errno. -/
inductive ListDirResult where
  | ok (entries : List RootEntry)
  | oserror (eno : Nat)

/-- `os.path.join(a, b)` with POSIX semantics for the cases this program
produces: an absolute second component (leading slash) replaces the first,
otherwise the components are joined with a single separator. -/
def pjoin (a b : String) : String :=
  if b.data.head? = some '/' then b
  else if a = "" ∨ a.data.getLast? = some '/' then a ++ b
  else a ++ "/" ++ b

/-- Result of running the `_list_kernels_in` generator to completion:
`exitZero` models `sys.exit(0)` on `ENOENT`/`ENOTDIR` from `os.listdir`,
`raised eno` models re-raising any other `OSError`, and `ok` yields the
children that pass the scanner condition, in enumeration order. -/
inductive ScanResult where
  | exitZero
  | raised (eno : Nat)
  | ok (kernels : List RootEntry)

/-- `_list_kernels_in`: list the root, treat `ENOENT`/`ENOTDIR` as
`sys.exit(0)`, re-raise any other `OSError`, and otherwise yield each child
directory containing a `kernel.json` regular file. -/
def _list_kernels_in (ld : ListDirResult) : ScanResult :=
  match ld with
  | ListDirResult.oserror eno =>
    if eno = ENOENT ∨ eno = ENOTDIR then ScanResult.exitZero
    else ScanResult.raised eno
  | ListDirResult.ok entries => ScanResult.ok (entries.filter scannedEntry)

/-- Final state of a `purge_broken_kernels` run: normal completion with the
children remaining under the root, a `sys.exit(code)` (after a fatal exit
the on-disk state of a partially removed tree is not modelled), or an
uncaught Python exception escaping the process with the current remaining
children. -/
inductive PurgeResult where
  | ok (remaining : List RootEntry)
  | exited (code : Nat)
  | crash (e : PyErr) (remaining : List RootEntry)

/-- The iteration of `purge_broken_kernels` over the root's children: each
child passing the scanner condition is classified by
`_check_and_remove_broken_kernel`; broken ones are removed by `_remove_dir`
(which exits fatally when removal fails), kept and unscanned children stay
in place, and an escaping exception aborts the loop with everything not yet
removed still present. -/
def purgeEntries (w : World) (root : String) : List RootEntry → PurgeResult
  | [] => PurgeResult.ok []
  | e :: rest =>
    match e.isdir, e.descr with
    | true, some rr =>
      (match checkBroken w rr with
       | Except.error pe => PurgeResult.crash pe (e :: rest)
       | Except.ok true =>
         (match w.removeErr (pjoin root e.name) with
          | some c => PurgeResult.exited c
          | none => purgeEntries w root rest)
       | Except.ok false =>
         (match purgeEntries w root rest with
          | PurgeResult.ok r => PurgeResult.ok (e :: r)
          | PurgeResult.exited c => PurgeResult.exited c
          | PurgeResult.crash pe r => PurgeResult.crash pe (e :: r)))
    | _, _ =>
      match purgeEntries w root rest with
      | PurgeResult.ok r => PurgeResult.ok (e :: r)
      | PurgeResult.exited c => PurgeResult.exited c
      | PurgeResult.crash pe r => PurgeResult.crash pe (e :: r)

/-- `purge_broken_kernels`: scan the kernel root and check-and-remove each
scanned kernel.  An `ENOENT`/`ENOTDIR` from listing exits with status 0
(via the generator's `sys.exit(0)`); any other `OSError` from listing is
re-raised, caught by the operation's `except OSError`, and turned into
`sys.exit(err.errno)`. -/
def purge_broken_kernels (w : World) (root : String) (ld : ListDirResult) : PurgeResult :=
  match ld with
  | ListDirResult.oserror eno =>
    if eno = ENOENT ∨ eno = ENOTDIR then PurgeResult.exited 0
    else PurgeResult.exited eno
  | ListDirResult.ok entries => purgeEntries w root entries

/-- Final state of a `show_kernels` run: a `sys.exit(code)` or normal
completion with the lines printed, in enumeration order. -/
inductive ShowResult where
  | exited (code : Nat)
  | finished (lines : List String)

/-- `show_kernels`: print one line `kernel: <name> --> <path>` per scanned
kernel; `ENOENT`/`ENOTDIR` from listing exits 0, any other `OSError` is
caught and exits with its errno. -/
def show_kernels (root : String) (ld : ListDirResult) : ShowResult :=
  match _list_kernels_in ld with
  | ScanResult.exitZero => ShowResult.exited 0
  | ScanResult.raised eno => ShowResult.exited eno
  | ScanResult.ok ks =>
    ShowResult.finished
      (ks.map fun e => "kernel: " ++ e.name ++ " --> " ++ pjoin root e.name)

/-- The process-level inputs of `_in_virtual_environment`: the two
environment variables (`os.getenv` returns `none` when unset) and the
interpreter attributes `sys.real_prefix` (presence only), `sys.base_prefix`
(absent on very old interpreters) and `sys.prefix`. -/
structure SysEnv where
  condaVar : Option String
  venvVar : Option String
  hasRealPfx : Bool
  basePfx : Option String
  sysPfx : String

/-- Python truthiness of an `os.getenv` result: `None` and the empty string
are falsy, every other string is truthy. -/
def pyGetenvTruthy : Option String → Bool
  | none => false
  | some s => !s.isEmpty

/-- `_in_virtual_environment`: `bool(os.getenv("CONDA_PREFIX") or
os.getenv("VIRTUAL_ENV") or is_using_venv)`, where `is_using_venv` is
`hasattr(sys, "real_prefix") or getattr(sys, "base_prefix", sys.prefix) !=
sys.prefix`. -/
def _in_virtual_environment (env : SysEnv) : Bool :=
  let is_using_venv := env.hasRealPfx || (env.basePfx.getD env.sysPfx != env.sysPfx)
  pyGetenvTruthy env.condaVar || pyGetenvTruthy env.venvVar || is_using_venv

/-- The character class `[a-z0-9._\-]` of `KERNEL_NAME_PATTERN` together
with its `re.IGNORECASE` flag over the ASCII plane (the flag admits
`A`-`Z`).  Python's `sre` matches a character under `IGNORECASE` through
its simple-lowercase mapping, which additionally admits a few non-ASCII
codepoints (for example U+212A KELVIN SIGN); the theorems below therefore
quantify over ASCII strings only. -/
def isAllowedChar (c : Char) : Bool :=
  (('a' ≤ c && c ≤ 'z') || ('A' ≤ c && c ≤ 'Z') || ('0' ≤ c && c ≤ '9')
    || c = '.' || c = '_' || c = '-')

/-- Matching of the regex tail `C*$` at a position, after `C+` has consumed
at least one character: Python's `$` matches at the end of the string or
just before a newline at the end of the string, and the greedy `+`
backtracks, so the tail matches iff the remaining characters split into a
run of class characters followed by a position where `$` matches. -/
def matchTail (cls : Char → Bool) : List Char → Bool
  | [] => true
  | c :: rest => (c = '\n' && rest.isEmpty) || (cls c && matchTail cls rest)

/-- Python `re.match` of the anchored pattern `^C+$` for a one-character
class `C`: at least one class character, then `matchTail`. -/
def matchPlusDollar (cls : Char → Bool) : List Char → Bool
  | [] => false
  | c :: rest => cls c && matchTail cls rest

/-- `KERNEL_NAME_PATTERN.match(name)` viewed as a boolean:
`re.match(r"^[a-z0-9._\-]+$", name, re.IGNORECASE)` succeeds. -/
def kernelNameMatch (name : String) : Bool :=
  matchPlusDollar isAllowedChar name.data

/-- `_get_kernel_name`, parameterised by `os.path.basename(sys.prefix)`:
the name is returned when it matches `KERNEL_NAME_PATTERN`, otherwise the
program logs and exits with `errno.EPERM`. -/
def _get_kernel_name (basename : String) : Except Nat String :=
  if kernelNameMatch basename then Except.ok basename
  else Except.error EPERM

/-- `_get_data_path`, over path components; `"~"` stands for the user's
home directory produced by `os.path.expanduser`.  Unsupported operating
systems exit with `errno.EPERM`. -/
def _get_data_path (osName : String) (subdirs : List String) : Except Nat (List String) :=
  if osName = "darwin" then Except.ok (["~", "Library", "Jupyter"] ++ subdirs)
  else if osName = "linux" then Except.ok (["~", ".local", "share", "jupyter"] ++ subdirs)
  else Except.error EPERM

/-- Filesystem resolution of `"."` and `".."` path components: `"."` names
the directory itself and `".."` its parent, as the operating system resolves
them. -/
def resolveComps (comps : List String) : List String :=
  comps.foldl
    (fun acc c => if c = "." then acc else if c = ".." then acc.dropLast else acc ++ [c])
    []

/-- Final state of `remove_active_environment`: a `sys.exit(code)` with the
kernel root's children at that moment, or normal completion. -/
inductive OpResult where
  | exited (code : Nat) (entries : List RootEntry)
  | ok (entries : List RootEntry)

/-- `remove_active_environment`: exit `errno.EPERM` when no activation
signal holds (before touching the filesystem); otherwise derive the kernel
name, expand `glob.glob` over the literal kernel path (validated names
contain no wildcard characters, so the expansion is an existence check on
the root's children) and `_remove_dir` each match. -/
def remove_active_environment (env : SysEnv) (basename : String) (w : World)
    (root : String) (entries : List RootEntry) : OpResult :=
  if _in_virtual_environment env = false then OpResult.exited EPERM entries
  else
    match _get_kernel_name basename with
    | Except.error c => OpResult.exited c entries
    | Except.ok name =>
      if entries.any (fun e => e.name = name) then
        match w.removeErr (pjoin root name) with
        | some c => OpResult.exited c entries
        | none => OpResult.ok (entries.filter fun e => ¬ e.name = name)
      else OpResult.ok entries

/-- Content of one file inside a kernel directory: the structured
descriptor written by `_write_kernel_specification`, binary bytes, or an
empty file (created by `io.open(..., "wb")` whose write was skipped). -/
inductive FileData where
  | descriptor (argv : List String) (display_name : String) (language : String)
  | bin (bs : List Nat)
  | emptyFile
deriving DecidableEq

/-- Writing a file into a directory listing: truncate-and-rewrite when the
name exists, append otherwise (Python's `io.open` with modes `wt`/`wb`). -/
def upsert (k : String) (v : FileData) : List (String × FileData) → List (String × FileData)
  | [] => [(k, v)]
  | (k0, v0) :: rest => if k0 = k then (k, v) :: rest else (k0, v0) :: upsert k v rest

/-- The interpreter attributes read by `_write_kernel_specification`:
`sys.executable`, `sys.version_info[0]` and `sys.prefix`. -/
structure SysParams where
  executable : String
  major : Nat
  sysPfx : String

/-- The descriptor value written to `kernel.json` by
`_write_kernel_specification`. -/
def specData (p : SysParams) : FileData :=
  FileData.descriptor
    [p.executable, "-m", "ipykernel_launcher", "-f", "\x7bconnection_file\x7d"]
    ("python" ++ toString p.major ++ " --> " ++ p.sysPfx)
    "python"

/-- Content of a logo file given the outcome of `base64.b64decode` on its
payload: the decoded bytes, or an empty file when `binascii.Error` was
suppressed after `io.open(..., "wb")` had already created and truncated the
file. -/
def decData : Option (List Nat) → FileData
  | some bs => FileData.bin bs
  | none => FileData.emptyFile

/-- World of `_create_new_kernel`: a forced `os.makedirs` failure when the
target is absent, success of the `pip install ipykernel` subprocess, I/O
failures opening `kernel.json` or a logo file for writing, and the
`base64.b64decode` outcomes of the two embedded payloads. -/
structure KWorld where
  mkdirErr : Option Nat
  pipOk : Bool
  specOpenErr : Option Nat
  logoOpenErr : String → Option Nat
  dec32 : Option (List Nat)
  dec64 : Option (List Nat)

/-- State of the kernel's target path: absent, a directory with the given
files, or an existing non-directory. -/
inductive PathState where
  | absent
  | dirWith (files : List (String × FileData))
  | nonDir
deriving DecidableEq

/-- Steps 2-4 of `_create_new_kernel` after `_create_dir`: install the
dependency (a `CalledProcessError` has no `errno`, so the exit code is the
`errno.EPERM` default of `getattr`), write `kernel.json`, then write the
two logos in the insertion order of `logos_spec`; every `IOError`/`OSError`
exits with that error's errno. -/
def populateKernelDir (w : KWorld) (p : SysParams)
    (files : List (String × FileData)) : Except Nat PathState :=
  if w.pipOk = false then Except.error EPERM
  else
    match w.specOpenErr with
    | some e => Except.error e
    | none =>
      let files1 := upsert "kernel.json" (specData p) files
      match w.logoOpenErr "logo-32x32.png" with
      | some e => Except.error e
      | none =>
        let files2 := upsert "logo-32x32.png" (decData w.dec32) files1
        match w.logoOpenErr "logo-64x64.png" with
        | some e => Except.error e
        | none =>
          Except.ok (PathState.dirWith (upsert "logo-64x64.png" (decData w.dec64) files2))

/-- `_create_new_kernel` acting on the state of the kernel's target path.
`_create_dir` passes when `os.makedirs` raises `EEXIST` and the path is a
directory; when the path exists as a non-directory the `EEXIST` error is
fatal; a spurious creation failure exits with its errno. -/
def _create_new_kernel (w : KWorld) (p : SysParams) (st : PathState) : Except Nat PathState :=
  match st with
  | PathState.nonDir => Except.error EEXIST
  | PathState.absent =>
    (match w.mkdirErr with
     | some e => Except.error e
     | none => populateKernelDir w p [])
  | PathState.dirWith files => populateKernelDir w p files

/-- `_write_python_logos` in isolation, over a list of
`(file name, b64decode outcome)` pairs in the iteration order of
`logos_spec`.  Opening each destination with `io.open(..., "wb")` creates
and truncates the file before decoding is attempted; a decode failure is
suppressed (`contextlib.suppress(binascii.Error)`), leaving that file
empty, while an open/write failure exits with its errno.  The returned list
records, per file created, the decode outcome whose `decData` is its
content. -/
def _write_python_logos (openErr : String → Option Nat) :
    List (String × Option (List Nat)) → Except Nat (List (String × Option (List Nat)))
  | [] => Except.ok []
  | (nm, d) :: rest =>
    match openErr nm with
    | some e => Except.error e
    | none =>
      match _write_python_logos openErr rest with
      | Except.ok fs => Except.ok ((nm, d) :: fs)
      | Except.error e => Except.error e

/-- The two embedded logo payloads of `logos_spec`, tagged with the outcome
of `base64.b64decode` on each. -/
def logosList (dec32 dec64 : Option (List Nat)) : List (String × Option (List Nat)) :=
  [("logo-32x32.png", dec32), ("logo-64x64.png", dec64)]

/-- Shape restriction `goodShape` lifted to a root child. -/
def entryGoodShape (e : RootEntry) : Bool :=
  match e.descr with
  | some rr => goodShape rr
  | none => true

/-- Shape restriction `goodShape` over all descriptors under a root. -/
def entriesGoodShape (entries : List RootEntry) : Bool :=
  entries.all entryGoodShape

/-- A concrete world: `/usr/bin/python3` is the only existing executable
file, and every directory removal succeeds. -/
def w0 : World where
  isfile := fun s => s = "/usr/bin/python3"
  xok := fun s => s = "/usr/bin/python3"
  removeErr := fun _ => none

/-- A well-formed descriptor: `argv[0]` names the existing executable. -/
def goodDescr : ReadResult :=
  ReadResult.parsed (Json.jobj [("argv", Json.jarr [Json.jstr "/usr/bin/python3"])])

/-- A broken descriptor: `argv[0]` names a missing interpreter. -/
def badDescr : ReadResult :=
  ReadResult.parsed (Json.jobj [("argv", Json.jarr [Json.jstr "/usr/bin/missing"])])

/-- A well-formed kernel directory under the root. -/
def goodEntry : RootEntry :=
  { name := "test1", isdir := true, descr := some goodDescr }

/-- A broken kernel directory under the root. -/
def badEntry : RootEntry :=
  { name := "broken", isdir := true, descr := some badDescr }

/-- A kernel directory whose descriptor parses to a JSON array: evaluating
`json.load(stream)["argv"]` on it raises an uncaught `TypeError`. -/
def crashEntry : RootEntry :=
  { name := "crasher", isdir := true, descr := some (ReadResult.parsed (Json.jarr [])) }

/-- A process state with no activation signal: both environment variables
unset and `sys.base_prefix` equal to `sys.prefix`. -/
def inactiveEnv : SysEnv :=
  { condaVar := none, venvVar := none, hasRealPfx := false,
    basePfx := some "/usr", sysPfx := "/usr" }

/-- An open-failure world for the logo writer that fails opening the first
icon with errno 13. -/
def openFail32 : String → Option Nat :=
  fun nm => if nm = "logo-32x32.png" then some 13 else none

/-- A logo-writer world in which every open succeeds. -/
def allOpensOk : String → Option Nat := fun _ => none

/-- A concrete writer world: every step succeeds and both payloads decode. -/
def kw0 : KWorld :=
  { mkdirErr := none, pipOk := true, specOpenErr := none,
    logoOpenErr := fun _ => none, dec32 := some [1], dec64 := some [2] }

/-- Concrete interpreter attributes for the writer. -/
def p0 : SysParams :=
  { executable := "/usr/bin/python3", major := 3, sysPfx := "/root/.venv" }

/-- First value bound to a file name in a directory listing. -/
def assqFirst (k : String) : List (String × FileData) → Option FileData
  | [] => none
  | (k0, v0) :: rest => if k0 = k then some v0 else assqFirst k rest

/-- The three file writes of one successful `_create_new_kernel` run, in
program order. -/
def seqWrite (w : KWorld) (p : SysParams)
    (files : List (String × FileData)) : List (String × FileData) :=
  upsert "logo-64x64.png" (decData w.dec64)
    (upsert "logo-32x32.png" (decData w.dec32)
      (upsert "kernel.json" (specData p) files))

/-- First activation signal: the isolation-tool variable `CONDA_PREFIX` is
set and non-empty. -/
def condaSignal (env : SysEnv) : Prop :=
  ∃ s, env.condaVar = some s ∧ s ≠ ""

/-- Second activation signal: the virtual-environment variable
`VIRTUAL_ENV` is set and non-empty. -/
def venvSignal (env : SysEnv) : Prop :=
  ∃ s, env.venvVar = some s ∧ s ≠ ""

/-- Third activation signal: the interpreter has been re-prefixed — the
legacy `sys.real_prefix` attribute exists, or `sys.base_prefix` (defaulting
to `sys.prefix` when absent) differs from `sys.prefix`. -/
def prefixSignal (env : SysEnv) : Prop :=
  env.hasRealPfx = true ∨ env.basePfx.getD env.sysPfx ≠ env.sysPfx

/-- On a descriptor of good shape the broken check raises nothing and its
classification agrees with the spec's brokenness predicate. -/
theorem checkBroken_of_goodShape (w : World) (rr : ReadResult)
    (h : goodShape rr = true) :
    checkBroken w rr = Except.ok (specBrokenRead w rr) := by
  cases rr with
  | ioError => rfl
  | decodeError => simp [goodShape] at h
  | parseError => rfl
  | parsed j =>
    cases j with
    | jnull => simp [goodShape] at h
    | jbool b => simp [goodShape] at h
    | jnum n => simp [goodShape] at h
    | jstr s => simp [goodShape] at h
    | jarr l => simp [goodShape] at h
    | jobj fields =>
      simp only [goodShape] at h
      cases hl : dictLookup fields "argv" with
      | none =>
        simp [checkBroken, subscriptArgv, hl, specBrokenRead]
      | some v =>
        rw [hl] at h
        cases v with
        | jnull => simp at h
        | jbool b => simp at h
        | jnum n => simp at h
        | jstr s => simp at h
        | jobj fs => simp at h
        | jarr l =>
          cases l with
          | nil =>
            simp [checkBroken, subscriptArgv, hl, subscriptZero, specBrokenRead]
          | cons x xs =>
            simp only [List.all_cons, Bool.and_eq_true] at h
            cases x with
            | jstr s =>
              simp [checkBroken, subscriptArgv, hl, subscriptZero, interpUsable,
                specBrokenRead]
            | jnull => simp at h
            | jbool b => simp at h
            | jnum n => simp at h
            | jarr l2 => simp at h
            | jobj fs => simp at h

/-- The purge loop, when it completes normally over good-shaped
descriptors, partitions the root's children: the remainder is a
subsequence of the input, every remaining scanned kernel is not broken,
every broken scanned kernel is gone, and every non-broken scanned kernel
is still present. -/
theorem purgeEntries_partition_lemma (w : World) (root : String) :
    ∀ (entries remaining : List RootEntry),
      entriesGoodShape entries = true →
      purgeEntries w root entries = PurgeResult.ok remaining →
      (∀ e ∈ remaining, e ∈ entries) ∧
      (∀ e ∈ remaining, scannedEntry e = true → specBroken w e.descr = false) ∧
      (∀ e ∈ entries, scannedEntry e = true → specBroken w e.descr = true → e ∉ remaining) ∧
      (∀ e ∈ entries, scannedEntry e = true → specBroken w e.descr = false → e ∈ remaining) := by
  intro entries
  induction entries with
  | nil =>
    intro remaining _ hp
    simp only [purgeEntries] at hp
    cases hp
    exact ⟨by simp, by simp, by simp, by simp⟩
  | cons e rest ih =>
    intro remaining hgs hp
    have hgs1 : entryGoodShape e = true ∧ entriesGoodShape rest = true := by
      simpa [entriesGoodShape, List.all_cons] using hgs
    obtain ⟨hge, hgrest⟩ := hgs1
    obtain ⟨nm, isd, dsc⟩ := e
    cases isd with
    | false =>
      simp only [purgeEntries] at hp
      cases hpr : purgeEntries w root rest with
      | ok r =>
        rw [hpr] at hp
        cases hp
        obtain ⟨ih1, ih2, ih3, ih4⟩ := ih r hgrest hpr
        refine ⟨?_, ?_, ?_, ?_⟩
        · intro x hx
          rcases List.mem_cons.mp hx with hx | hx
          · exact List.mem_cons.mpr (Or.inl hx)
          · exact List.mem_cons.mpr (Or.inr (ih1 x hx))
        · intro x hx hsc
          rcases List.mem_cons.mp hx with hx | hx
          · subst hx; simp [scannedEntry] at hsc
          · exact ih2 x hx hsc
        · intro x hx hsc hbr
          rcases List.mem_cons.mp hx with hx | hx
          · subst hx; simp [scannedEntry] at hsc
          · intro hmem
            rcases List.mem_cons.mp hmem with hmem | hmem
            · subst hmem; simp [scannedEntry] at hsc
            · exact ih3 x hx hsc hbr hmem
        · intro x hx hsc hwf
          rcases List.mem_cons.mp hx with hx | hx
          · subst hx; simp [scannedEntry] at hsc
          · exact List.mem_cons.mpr (Or.inr (ih4 x hx hsc hwf))
      | exited c => rw [hpr] at hp; cases hp
      | crash pe r => rw [hpr] at hp; cases hp
    | true =>
      cases dsc with
      | none =>
        simp only [purgeEntries] at hp
        cases hpr : purgeEntries w root rest with
        | ok r =>
          rw [hpr] at hp
          cases hp
          obtain ⟨ih1, ih2, ih3, ih4⟩ := ih r hgrest hpr
          refine ⟨?_, ?_, ?_, ?_⟩
          · intro x hx
            rcases List.mem_cons.mp hx with hx | hx
            · exact List.mem_cons.mpr (Or.inl hx)
            · exact List.mem_cons.mpr (Or.inr (ih1 x hx))
          · intro x hx hsc
            rcases List.mem_cons.mp hx with hx | hx
            · subst hx; simp [scannedEntry] at hsc
            · exact ih2 x hx hsc
          · intro x hx hsc hbr
            rcases List.mem_cons.mp hx with hx | hx
            · subst hx; simp [scannedEntry] at hsc
            · intro hmem
              rcases List.mem_cons.mp hmem with hmem | hmem
              · subst hmem; simp [scannedEntry] at hsc
              · exact ih3 x hx hsc hbr hmem
          · intro x hx hsc hwf
            rcases List.mem_cons.mp hx with hx | hx
            · subst hx; simp [scannedEntry] at hsc
            · exact List.mem_cons.mpr (Or.inr (ih4 x hx hsc hwf))
        | exited c => rw [hpr] at hp; cases hp
        | crash pe r => rw [hpr] at hp; cases hp
      | some rr =>
        have hgood : goodShape rr = true := by simpa [entryGoodShape] using hge
        have hcb := checkBroken_of_goodShape w rr hgood
        simp only [purgeEntries, hcb] at hp
        cases hb : specBrokenRead w rr with
        | true =>
          rw [hb] at hp
          cases hr : w.removeErr (pjoin root nm) with
          | some c => rw [hr] at hp; cases hp
          | none =>
            rw [hr] at hp
            obtain ⟨ih1, ih2, ih3, ih4⟩ := ih remaining hgrest hp
            refine ⟨?_, ih2, ?_, ?_⟩
            · intro x hx
              exact List.mem_cons.mpr (Or.inr (ih1 x hx))
            · intro x hx hsc hbr
              rcases List.mem_cons.mp hx with hx | hx
              · subst hx
                intro hmem
                exact ih3 _ (ih1 _ hmem) hsc hbr hmem
              · exact ih3 x hx hsc hbr
            · intro x hx hsc hwf
              rcases List.mem_cons.mp hx with hx | hx
              · subst hx
                rw [show specBroken w (RootEntry.mk nm true (some rr)).descr
                      = specBrokenRead w rr from rfl, hb] at hwf
                cases hwf
              · exact ih4 x hx hsc hwf
        | false =>
          rw [hb] at hp
          cases hpr : purgeEntries w root rest with
          | ok r =>
            rw [hpr] at hp
            cases hp
            obtain ⟨ih1, ih2, ih3, ih4⟩ := ih r hgrest hpr
            refine ⟨?_, ?_, ?_, ?_⟩
            · intro x hx
              rcases List.mem_cons.mp hx with hx | hx
              · exact List.mem_cons.mpr (Or.inl hx)
              · exact List.mem_cons.mpr (Or.inr (ih1 x hx))
            · intro x hx hsc
              rcases List.mem_cons.mp hx with hx | hx
              · subst hx
                rw [show specBroken w (RootEntry.mk nm true (some rr)).descr
                      = specBrokenRead w rr from rfl, hb]
              · exact ih2 x hx hsc
            · intro x hx hsc hbr
              rcases List.mem_cons.mp hx with hx | hx
              · subst hx
                rw [show specBroken w (RootEntry.mk nm true (some rr)).descr
                      = specBrokenRead w rr from rfl, hb] at hbr
                cases hbr
              · intro hmem
                rcases List.mem_cons.mp hmem with hmem | hmem
                · subst hmem
                  rw [show specBroken w (RootEntry.mk nm true (some rr)).descr
                        = specBrokenRead w rr from rfl, hb] at hbr
                  cases hbr
                · exact ih3 x hx hsc hbr hmem
            · intro x hx hsc hwf
              rcases List.mem_cons.mp hx with hx | hx
              · subst hx; exact List.mem_cons.mpr (Or.inl rfl)
              · exact List.mem_cons.mpr (Or.inr (ih4 x hx hsc hwf))
          | exited c => rw [hpr] at hp; cases hp
          | crash pe r => rw [hpr] at hp; cases hp

/-- The tail of the anchored pattern matches a character list exactly when
the list is a run of class characters, possibly followed by one final
newline. -/
theorem matchTail_iff_lemma (cls : Char → Bool) (l : List Char) :
    matchTail cls l = true ↔
      l.all cls = true ∨ ∃ t, l = t ++ ['\n'] ∧ t.all cls = true := by
  induction l with
  | nil =>
    simp [matchTail]
  | cons c rest ih =>
    simp only [matchTail, Bool.or_eq_true, Bool.and_eq_true, decide_eq_true_eq,
      List.isEmpty_iff, List.all_cons]
    constructor
    · rintro (⟨hc, hrest⟩ | ⟨hc, htail⟩)
      · subst hc; subst hrest
        exact Or.inr ⟨[], rfl, rfl⟩
      · rcases ih.mp htail with hall | ⟨t, ht, hta⟩
        · exact Or.inl ⟨hc, hall⟩
        · refine Or.inr ⟨c :: t, ?_, ?_⟩
          · rw [ht]; rfl
          · simp [List.all_cons, hc, hta]
    · rintro (⟨hc, hall⟩ | ⟨t, ht, hta⟩)
      · exact Or.inr ⟨hc, ih.mpr (Or.inl hall)⟩
      · cases t with
        | nil =>
          simp only [List.nil_append, List.cons.injEq] at ht
          exact Or.inl ⟨ht.1, ht.2⟩
        | cons c2 t2 =>
          simp only [List.cons_append, List.cons.injEq] at ht
          obtain ⟨hc2, hrest⟩ := ht
          simp only [List.all_cons, Bool.and_eq_true] at hta
          subst hc2
          exact Or.inr ⟨hta.1, ih.mpr (Or.inr ⟨t2, hrest, hta.2⟩)⟩

/-- Python's `re.match` of `^C+$` succeeds on a character list exactly when
it is a nonempty run of class characters, optionally followed by a single
trailing newline. -/
theorem matchPlusDollar_iff_lemma (cls : Char → Bool) (l : List Char) :
    matchPlusDollar cls l = true ↔
      (l ≠ [] ∧ l.all cls = true) ∨
      (∃ t, l = t ++ ['\n'] ∧ t ≠ [] ∧ t.all cls = true) := by
  cases l with
  | nil =>
    constructor
    · intro h; cases h
    · rintro (⟨h, _⟩ | ⟨t, ht, hne, _⟩)
      · exact absurd rfl h
      · exact absurd ht (by simp)
  | cons c rest =>
    simp only [matchPlusDollar, Bool.and_eq_true, matchTail_iff_lemma]
    constructor
    · rintro ⟨hc, hall | ⟨t, ht, hta⟩⟩
      · exact Or.inl ⟨by simp, by simp [List.all_cons, hc, hall]⟩
      · refine Or.inr ⟨c :: t, by rw [ht]; rfl, by simp, by simp [List.all_cons, hc, hta]⟩
    · rintro (⟨_, hall⟩ | ⟨t, ht, hne, hta⟩)
      · simp only [List.all_cons, Bool.and_eq_true] at hall
        exact ⟨hall.1, Or.inl hall.2⟩
      · cases t with
        | nil => exact absurd rfl hne
        | cons c2 t2 =>
          simp only [List.cons_append, List.cons.injEq] at ht
          obtain ⟨hc2, hrest⟩ := ht
          simp only [List.all_cons, Bool.and_eq_true] at hta
          subst hc2
          exact ⟨hta.1, Or.inr ⟨t2, hrest, hta.2⟩⟩

/-- After writing a file, looking its name up finds the written content. -/
theorem assq_upsert_same_lemma (k : String) (v : FileData)
    (l : List (String × FileData)) : assqFirst k (upsert k v l) = some v := by
  induction l with
  | nil => simp [upsert, assqFirst]
  | cons kv rest ih =>
    obtain ⟨k0, v0⟩ := kv
    by_cases h : k0 = k
    · subst h; simp [upsert, assqFirst]
    · simp [upsert, assqFirst, h, ih]

/-- Writing one file leaves lookups of other names unchanged. -/
theorem assq_upsert_other_lemma (k k2 : String) (v : FileData)
    (l : List (String × FileData)) (h : k2 ≠ k) :
    assqFirst k (upsert k2 v l) = assqFirst k l := by
  induction l with
  | nil => simp [upsert, assqFirst, h]
  | cons kv rest ih =>
    obtain ⟨k0, v0⟩ := kv
    by_cases h0 : k0 = k2
    · subst h0; simp [upsert, assqFirst, h]
    · by_cases h1 : k0 = k
      · subst h1; simp [upsert, assqFirst, h0]
      · simp [upsert, assqFirst, h0, h1, ih]

/-- Rewriting a file with the content it already holds (at its first
occurrence) changes nothing. -/
theorem upsert_eq_self_lemma (k : String) (v : FileData)
    (l : List (String × FileData)) (h : assqFirst k l = some v) :
    upsert k v l = l := by
  induction l with
  | nil => simp [assqFirst] at h
  | cons kv rest ih =>
    obtain ⟨k0, v0⟩ := kv
    by_cases hk : k0 = k
    · subst hk
      simp only [assqFirst, if_true, eq_self_iff_true, if_pos] at h
      rw [Option.some.injEq] at h
      subst h
      simp [upsert]
    · simp only [assqFirst, if_neg hk] at h
      simp [upsert, hk, ih h]

/-- The three writes of `_create_new_kernel` are idempotent as a whole. -/
theorem seqWrite_idem_lemma (w : KWorld) (p : SysParams)
    (l : List (String × FileData)) :
    seqWrite w p (seqWrite w p l) = seqWrite w p l := by
  have h1 : assqFirst "kernel.json" (seqWrite w p l) = some (specData p) := by
    unfold seqWrite
    rw [assq_upsert_other_lemma _ _ _ _ (by decide),
      assq_upsert_other_lemma _ _ _ _ (by decide), assq_upsert_same_lemma]
  have h2 : assqFirst "logo-32x32.png" (seqWrite w p l) = some (decData w.dec32) := by
    unfold seqWrite
    rw [assq_upsert_other_lemma _ _ _ _ (by decide), assq_upsert_same_lemma]
  have h3 : assqFirst "logo-64x64.png" (seqWrite w p l) = some (decData w.dec64) :=
    assq_upsert_same_lemma _ _ _
  conv_lhs => rw [seqWrite]
  rw [upsert_eq_self_lemma _ _ _ h1, upsert_eq_self_lemma _ _ _ h2,
    upsert_eq_self_lemma _ _ _ h3]

/-- Inversion of a successful `populateKernelDir` run: every step
succeeded and the result is the directory with the three files written. -/
theorem populate_ok_inversion_lemma (w : KWorld) (p : SysParams)
    (files : List (String × FileData)) (st : PathState)
    (h : populateKernelDir w p files = Except.ok st) :
    w.pipOk = true ∧ w.specOpenErr = none ∧
    w.logoOpenErr "logo-32x32.png" = none ∧ w.logoOpenErr "logo-64x64.png" = none ∧
    st = PathState.dirWith (seqWrite w p files) := by
  unfold populateKernelDir at h
  cases hpip : w.pipOk with
  | false => rw [hpip] at h; cases h
  | true =>
    rw [hpip] at h
    simp only [Bool.true_eq_false, if_false] at h
    cases hso : w.specOpenErr with
    | some e => rw [hso] at h; cases h
    | none =>
      rw [hso] at h
      cases h32 : w.logoOpenErr "logo-32x32.png" with
      | some e => rw [h32] at h; cases h
      | none =>
        rw [h32] at h
        cases h64 : w.logoOpenErr "logo-64x64.png" with
        | some e => rw [h64] at h; cases h
        | none =>
          rw [h64] at h
          cases h
          exact ⟨rfl, rfl, rfl, rfl, rfl⟩

/-- C1 counterexample.  The claim asserts that after purge every broken
kernel directory no longer exists.  On a root whose only kernel has a
descriptor parsing to the JSON array `[]` — broken per the spec, since it
has no non-empty `argv` — purge raises an uncaught `TypeError` and the
broken kernel directory is still present afterwards. -/
theorem purge_leaves_crash_shaped_broken_kernel :
    purge_broken_kernels w0 "/root/kernels" (ListDirResult.ok [crashEntry])
      = PurgeResult.crash PyErr.typeErr [crashEntry] ∧
    scannedEntry crashEntry = true ∧
    specBroken w0 crashEntry.descr = true :=
  ⟨rfl, rfl, rfl⟩

/-- C1 (amended).  For every kernel root whose descriptors decode as
UTF-8 and, when they parse, have the expected JSON shape (an object whose
`argv` member, if present, is an array of strings), a purge run that
completes normally is a stable partition: every kernel directory remaining under the root is
well-formed, every kernel directory that was broken before purge no longer
exists, and every kernel directory that was well-formed before purge is
still present unchanged. -/
theorem purge_stable_partition (w : World) (root : String)
    (entries remaining : List RootEntry)
    (hshape : entriesGoodShape entries = true)
    (hrun : purge_broken_kernels w root (ListDirResult.ok entries)
      = PurgeResult.ok remaining) :
    (∀ e ∈ remaining, e ∈ entries) ∧
    (∀ e ∈ remaining, scannedEntry e = true → specBroken w e.descr = false) ∧
    (∀ e ∈ entries, scannedEntry e = true → specBroken w e.descr = true →
      e ∉ remaining) ∧
    (∀ e ∈ entries, scannedEntry e = true → specBroken w e.descr = false →
      e ∈ remaining) :=
  purgeEntries_partition_lemma w root entries remaining hshape hrun

/-- C1 witness: a concrete root with one well-formed and one broken kernel
on which the amended purge theorem applies. -/
theorem purge_stable_partition_witness :
    entriesGoodShape [goodEntry, badEntry] = true ∧
    purge_broken_kernels w0 "/root/kernels" (ListDirResult.ok [goodEntry, badEntry])
      = PurgeResult.ok [goodEntry] ∧
    ((∀ e ∈ ([goodEntry] : List RootEntry), e ∈ [goodEntry, badEntry]) ∧
     (∀ e ∈ ([goodEntry] : List RootEntry), scannedEntry e = true →
       specBroken w0 e.descr = false) ∧
     (∀ e ∈ [goodEntry, badEntry], scannedEntry e = true →
       specBroken w0 e.descr = true → e ∉ ([goodEntry] : List RootEntry)) ∧
     (∀ e ∈ [goodEntry, badEntry], scannedEntry e = true →
       specBroken w0 e.descr = false → e ∈ ([goodEntry] : List RootEntry))) :=
  ⟨by decide, rfl,
    purge_stable_partition w0 "/root/kernels" [goodEntry, badEntry] [goodEntry]
      (by decide) rfl⟩

/-- C3 counterexample.  The claim asserts any string containing a
character outside the class — such as a trailing newline — is rejected.
Python's `$` matches just before a trailing newline, so `"test\n"` is
accepted although `'\n'` is outside the class. -/
theorem kernel_name_accepts_trailing_newline :
    _get_kernel_name "test\n" = Except.ok "test\n" ∧ isAllowedChar '\n' = false :=
  ⟨rfl, by decide⟩

/-- C3 (amended).  Over ASCII strings, kernel-name validation accepts a
name exactly when it is one or more characters of the class
`[A-Za-z0-9._-]`, optionally followed by a single trailing newline
(admitted by Python's `$`); every other name is rejected with the
`errno.EPERM` exit. -/
theorem kernel_name_validation_characterization (name : String)
    (_hascii : name.data.all (fun c => c.toNat < 128) = true) :
    (_get_kernel_name name = Except.ok name ↔
      (name.data ≠ [] ∧ name.data.all isAllowedChar = true) ∨
      (∃ t, name.data = t ++ ['\n'] ∧ t ≠ [] ∧ t.all isAllowedChar = true)) ∧
    (_get_kernel_name name = Except.ok name ∨
      _get_kernel_name name = Except.error EPERM) := by
  have hk : _get_kernel_name name = Except.ok name ↔ kernelNameMatch name = true := by
    unfold _get_kernel_name
    by_cases h : kernelNameMatch name = true
    · simp [h]
    · simp [h]
  constructor
  · rw [hk]
    exact matchPlusDollar_iff_lemma isAllowedChar name.data
  · unfold _get_kernel_name
    by_cases h : kernelNameMatch name = true
    · simp [h]
    · simp [h]

/-- C3 witness: the characterization applied to a concrete ASCII name. -/
theorem kernel_name_validation_witness :
    ("env-1".data.all (fun c => c.toNat < 128) = true) ∧
    ((_get_kernel_name "env-1" = Except.ok "env-1" ↔
      ("env-1".data ≠ [] ∧ "env-1".data.all isAllowedChar = true) ∨
      (∃ t, "env-1".data = t ++ ['\n'] ∧ t ≠ [] ∧ t.all isAllowedChar = true)) ∧
     (_get_kernel_name "env-1" = Except.ok "env-1" ∨
      _get_kernel_name "env-1" = Except.error EPERM)) :=
  ⟨by decide, kernel_name_validation_characterization "env-1" (by decide)⟩

/-- C4.  The environment-activation predicate is true exactly when at
least one of the three activation signals holds — the isolation-tool
variable set non-empty, the virtual-environment variable set non-empty, or
the interpreter re-prefixed (the legacy `real_prefix` marker or a base
prefix differing from the effective prefix) — and false when none holds,
for every combination of the signals. -/
theorem in_virtual_environment_iff_signals (env : SysEnv) :
    _in_virtual_environment env = true ↔
      condaSignal env ∨ venvSignal env ∨ prefixSignal env := by
  have hgen : ∀ o : Option String,
      pyGetenvTruthy o = true ↔ ∃ s, o = some s ∧ s ≠ "" := by
    intro o
    cases o with
    | none => simp [pyGetenvTruthy]
    | some s =>
      simp only [pyGetenvTruthy, Bool.not_eq_true', Option.some.injEq]
      constructor
      · intro h
        refine ⟨s, rfl, fun he => ?_⟩
        subst he
        simp [String.isEmpty] at h
      · rintro ⟨s2, he, hne⟩
        subst he
        cases hie : s.isEmpty with
        | false => rfl
        | true =>
          exact absurd ((String.isEmpty_iff s).mp hie) hne
  unfold _in_virtual_environment condaSignal venvSignal prefixSignal
  simp only [Bool.or_eq_true, bne_iff_ne]
  rw [hgen env.condaVar, hgen env.venvVar]
  exact or_assoc

/-- C5.  Invoking `remove` while no activation signal holds exits fatally
with the `errno.EPERM` status before any filesystem access: the kernel
root's children are exactly as before. -/
theorem remove_inactive_exits_eperm_unchanged (env : SysEnv) (basename : String)
    (w : World) (root : String) (entries : List RootEntry)
    (h : _in_virtual_environment env = false) :
    remove_active_environment env basename w root entries
      = OpResult.exited EPERM entries := by
  unfold remove_active_environment
  rw [h]
  simp

/-- C5 witness: a concrete inactive process state and root. -/
theorem remove_inactive_witness :
    _in_virtual_environment inactiveEnv = false ∧
    remove_active_environment inactiveEnv ".venv" w0 "/root/kernels" [goodEntry]
      = OpResult.exited EPERM [goodEntry] :=
  ⟨rfl, remove_inactive_exits_eperm_unchanged inactiveEnv ".venv" w0 "/root/kernels"
    [goodEntry] rfl⟩

/-- C6.  The names `"."` and `".."` pass kernel-name validation, yet the
kernel path computed for them is not a proper child of the kernel root:
`data_root("kernels", ".")` resolves to the kernel root itself and
`data_root("kernels", "..")` to its parent, so `remove` driven by such a
derived name targets the whole kernel root or its parent. -/
theorem dot_names_escape_kernel_root :
    _get_kernel_name "." = Except.ok "." ∧
    _get_kernel_name ".." = Except.ok ".." ∧
    _get_data_path "linux" ["kernels", "."]
      = Except.ok ["~", ".local", "share", "jupyter", "kernels", "."] ∧
    resolveComps ["~", ".local", "share", "jupyter", "kernels", "."]
      = resolveComps ["~", ".local", "share", "jupyter", "kernels"] ∧
    _get_data_path "linux" ["kernels", ".."]
      = Except.ok ["~", ".local", "share", "jupyter", "kernels", ".."] ∧
    resolveComps ["~", ".local", "share", "jupyter", "kernels", ".."]
      = resolveComps ["~", ".local", "share", "jupyter"] :=
  ⟨rfl, rfl, rfl, rfl, rfl, rfl⟩

/-- C7 counterexample.  The claim asserts that when base64 decoding fails
the icon file is not produced.  The code opens the destination with
`io.open(..., "wb")` before decoding, so a decode failure leaves the icon
file present and empty: with the first payload failing to decode, the
writer completes and the produced files include `logo-32x32.png` with
empty content. -/
theorem logo_decode_failure_leaves_empty_file :
    _write_python_logos allOpensOk (logosList none (some [137]))
      = Except.ok [("logo-32x32.png", none), ("logo-64x64.png", some [137])] ∧
    decData none = FileData.emptyFile :=
  ⟨rfl, rfl⟩

/-- C7 (amended).  In the icon-writing step, when opening both
destinations succeeds the writer completes and produces both icon files —
a decode failure yields that file empty rather than absent — while an I/O
failure opening either destination is fatal with that error's errno. -/
theorem write_python_logos_behaviour (openErr : String → Option Nat)
    (dec32 dec64 : Option (List Nat)) :
    (openErr "logo-32x32.png" = none → openErr "logo-64x64.png" = none →
      _write_python_logos openErr (logosList dec32 dec64)
        = Except.ok (logosList dec32 dec64)) ∧
    (∀ e, openErr "logo-32x32.png" = some e →
      _write_python_logos openErr (logosList dec32 dec64) = Except.error e) ∧
    (∀ e, openErr "logo-32x32.png" = none → openErr "logo-64x64.png" = some e →
      _write_python_logos openErr (logosList dec32 dec64) = Except.error e) := by
  refine ⟨?_, ?_, ?_⟩
  · intro h32 h64
    simp [logosList, _write_python_logos, h32, h64]
  · intro e h32
    simp [logosList, _write_python_logos, h32]
  · intro e h32 h64
    simp [logosList, _write_python_logos, h32, h64]

/-- C7 witness: the amended behaviour at a concrete all-opens-succeed
world and at a concrete open-failure world. -/
theorem write_python_logos_witness :
    allOpensOk "logo-32x32.png" = none ∧ allOpensOk "logo-64x64.png" = none ∧
    _write_python_logos allOpensOk (logosList (some [10]) (some [20]))
      = Except.ok (logosList (some [10]) (some [20])) ∧
    openFail32 "logo-32x32.png" = some 13 ∧
    _write_python_logos openFail32 (logosList (some [10]) (some [20]))
      = Except.error 13 :=
  ⟨rfl, rfl,
    (write_python_logos_behaviour allOpensOk (some [10]) (some [20])).1 rfl rfl,
    rfl,
    (write_python_logos_behaviour openFail32 (some [10]) (some [20])).2.1 13 rfl⟩

/-- C8.  `create_kernel` is idempotent: a second run on the state left by
a successful first run succeeds — the target path already existing as a
directory is not an error — and recreates exactly the same directory
contents, leaving one well-formed kernel directory for the name. -/
theorem create_kernel_idempotent (w : KWorld) (p : SysParams) (st st1 : PathState)
    (h : _create_new_kernel w p st = Except.ok st1) :
    _create_new_kernel w p st1 = Except.ok st1 := by
  have key : ∀ files, populateKernelDir w p files = Except.ok st1 →
      _create_new_kernel w p st1 = Except.ok st1 := by
    intro files hpop
    obtain ⟨hpip, hso, h32, h64, hst⟩ := populate_ok_inversion_lemma w p files st1 hpop
    subst hst
    show _create_new_kernel w p (PathState.dirWith (seqWrite w p files))
      = Except.ok (PathState.dirWith (seqWrite w p files))
    unfold _create_new_kernel populateKernelDir
    rw [hpip, hso, h32, h64]
    simp only [Bool.true_eq_false, if_false]
    rw [show (upsert "logo-64x64.png" (decData w.dec64)
          (upsert "logo-32x32.png" (decData w.dec32)
            (upsert "kernel.json" (specData p) (seqWrite w p files))))
        = seqWrite w p (seqWrite w p files) from rfl]
    rw [seqWrite_idem_lemma]
  cases st with
  | nonDir => simp [_create_new_kernel] at h
  | absent =>
    unfold _create_new_kernel at h
    cases hmk : w.mkdirErr with
    | some e => rw [hmk] at h; cases h
    | none =>
      rw [hmk] at h
      exact key [] h
  | dirWith files =>
    unfold _create_new_kernel at h
    exact key files h

/-- C8 witness: a concrete successful creation from an absent path, and
the second run reproducing the same directory. -/
theorem create_kernel_idempotent_witness :
    _create_new_kernel kw0 p0 PathState.absent
      = Except.ok (PathState.dirWith
          [("kernel.json", specData p0), ("logo-32x32.png", FileData.bin [1]),
           ("logo-64x64.png", FileData.bin [2])]) ∧
    _create_new_kernel kw0 p0
        (PathState.dirWith
          [("kernel.json", specData p0), ("logo-32x32.png", FileData.bin [1]),
           ("logo-64x64.png", FileData.bin [2])])
      = Except.ok (PathState.dirWith
          [("kernel.json", specData p0), ("logo-32x32.png", FileData.bin [1]),
           ("logo-64x64.png", FileData.bin [2])]) :=
  ⟨rfl, create_kernel_idempotent kw0 p0 PathState.absent _ rfl⟩

/-- C9.  When the kernel root does not exist or is not a directory
(`os.listdir` fails with `ENOENT`/`ENOTDIR`), the scanner terminates the
consuming operation — purge or show — successfully with exit status 0,
treating the situation as zero kernels; any other `OSError` from listing
is re-raised to the caller. -/
theorem scanner_absent_root_benign (eno : Nat) (w : World) (root sroot : String) :
    ((eno = ENOENT ∨ eno = ENOTDIR) →
      _list_kernels_in (ListDirResult.oserror eno) = ScanResult.exitZero ∧
      purge_broken_kernels w root (ListDirResult.oserror eno) = PurgeResult.exited 0 ∧
      show_kernels sroot (ListDirResult.oserror eno) = ShowResult.exited 0) ∧
    (¬(eno = ENOENT ∨ eno = ENOTDIR) →
      _list_kernels_in (ListDirResult.oserror eno) = ScanResult.raised eno) := by
  constructor
  · intro h
    refine ⟨?_, ?_, ?_⟩
    · simp [_list_kernels_in, h]
    · simp [purge_broken_kernels, h]
    · simp [show_kernels, _list_kernels_in, h]
  · intro h
    simp [_list_kernels_in, h]

/-- C9 witness: the benign branch at errno 2 (`ENOENT`) and the
propagating branch at errno 13 (`EACCES`). -/
theorem scanner_absent_root_witness :
    ((2 : Nat) = ENOENT ∨ (2 : Nat) = ENOTDIR) ∧
    _list_kernels_in (ListDirResult.oserror 2) = ScanResult.exitZero ∧
    purge_broken_kernels w0 "/root/kernels" (ListDirResult.oserror 2)
      = PurgeResult.exited 0 ∧
    show_kernels "/root/kernels" (ListDirResult.oserror 2) = ShowResult.exited 0 ∧
    ¬((13 : Nat) = ENOENT ∨ (13 : Nat) = ENOTDIR) ∧
    _list_kernels_in (ListDirResult.oserror 13) = ScanResult.raised 13 := by
  have ha := (scanner_absent_root_benign 2 w0 "/root/kernels" "/root/kernels").1 (by decide)
  have hb := (scanner_absent_root_benign 13 w0 "/root/kernels" "/root/kernels").2 (by decide)
  exact ⟨by decide, ha.1, ha.2.1, ha.2.2, by decide, hb⟩

/-- C10.  On a kernel root containing exactly the kernel directories
`test1`, `test2`, `test3`, each a directory with a `kernel.json` file
(whatever its content), `show` prints exactly three lines, one per kernel
in enumeration order, each of the form `kernel: <name> --> <path>`. -/
theorem show_prints_three_kernels (d1 d2 d3 : ReadResult) :
    show_kernels "/root/kernels"
      (ListDirResult.ok
        [{ name := "test1", isdir := true, descr := some d1 },
         { name := "test2", isdir := true, descr := some d2 },
         { name := "test3", isdir := true, descr := some d3 }])
      = ShowResult.finished
          ["kernel: test1 --> /root/kernels/test1",
           "kernel: test2 --> /root/kernels/test2",
           "kernel: test3 --> /root/kernels/test3"] :=
  rfl

end NbEnv
